import Mathlib

/-!
Verification of the Poe Imagen bot pipeline (src/GCS/imagen_bot_poe.py).

The development shallowly embeds the request handler
ImageResponsePoeBot.get_response: the prompt/directive parser built on the
regular expression "--number_of_images\s*=\s*\d+" (re.search for the count,
re.sub to delete every occurrence, then str.strip), and the per-request
pipeline that generates a batch of images and, per image, either emits a
markdown link for a signed URL or falls back to a binary attachment.
External effects (the Vertex AI generation call, the GCS upload and URL
signing) are oracles supplied through an environment record; the observable
output is the ordered list of emitted events (yielded text responses and
posted attachments).
-/

namespace ImagenBot

/-- Python ASCII whitespace, the characters matched by the regex class
backslash-s and stripped by str.strip on the inputs considered here:
space, tab, newline, carriage return, vertical tab, form feed. -/
def pySpace (c : Char) : Bool :=
  c == ' ' || c == '\t' || c == '\n' || c == '\r' ||
  c == Char.ofNat 11 || c == Char.ofNat 12

/-- ASCII decimal digit, the regex class backslash-d. -/
def pyDigit (c : Char) : Bool :=
  48 ≤ c.toNat && c.toNat ≤ 57

/-- Literal part of the directive pattern. -/
def directiveLit : List Char := "--number_of_images".toList

/-- First argument is the literal still to match, second the text. -/
def startsWithLit : List Char → List Char → Bool
  | [], _ => true
  | _ :: _, [] => false
  | p :: ps, c :: cs => p == c && startsWithLit ps cs

/-- Attempt to match the pattern "--number_of_images\s*=\s*\d+" at the head
of the text (the pattern is deterministic: no character is both whitespace
and an equals sign or a digit, so greedy matching needs no backtracking).
Returns the total length of the match and the captured digit run. -/
def matchInfo (s : List Char) : Option (Nat × List Char) :=
  if startsWithLit directiveLit s then
    let r := s.drop directiveLit.length
    let w1 := r.takeWhile pySpace
    let r1 := r.drop w1.length
    match r1 with
    | '=' :: r2 =>
      let w2 := r2.takeWhile pySpace
      let r3 := r2.drop w2.length
      let ds := r3.takeWhile pyDigit
      if ds = [] then none
      else some (directiveLit.length + w1.length + 1 + w2.length + ds.length, ds)
    | _ => none
  else none

/-- re.search: digit run captured by the leftmost match, if any. -/
def searchDigits : List Char → Option (List Char)
  | [] => none
  | c :: rest =>
    match matchInfo (c :: rest) with
    | some (_, ds) => some ds
    | none => searchDigits rest

/-- re.sub with empty replacement: delete every non-overlapping occurrence,
scanning left to right and resuming after each deleted match.  The fuel
argument (instantiated with length + 1, enough since every step consumes at
least one character) makes the recursion structural. -/
def subAllFuel : Nat → List Char → List Char
  | 0, _ => []
  | _ + 1, [] => []
  | fuel + 1, c :: rest =>
    match matchInfo (c :: rest) with
    | some (L, _) => subAllFuel fuel ((c :: rest).drop L)
    | none => c :: subAllFuel fuel rest

/-- Delete every occurrence of the directive pattern. -/
def subAll (s : List Char) : List Char :=
  subAllFuel (s.length + 1) s

/-- str.strip: drop leading and trailing whitespace. -/
def pyStrip (l : List Char) : List Char :=
  ((l.dropWhile pySpace).reverse.dropWhile pySpace).reverse

/-- str.strip on strings. -/
def pyStripStr (s : String) : String :=
  ⟨pyStrip s.toList⟩

/-- Python int() on a run of ASCII digits. -/
def natOfDigits (ds : List Char) : Nat :=
  ds.foldl (fun a c => a * 10 + (c.toNat - 48)) 0

/-- The directive parser, lines 63-80 of imagen_bot_poe.py: search for the
directive; if absent the prompt is used unmodified and the count is 1; if
present, clamp the parsed value into [1,4], delete every occurrence of the
directive pattern from the prompt, and strip surrounding whitespace. -/
def parsePrompt (s : String) : String × Nat :=
  match searchDigits s.toList with
  | none => (s, 1)
  | some ds =>
    let n := natOfDigits ds
    let count := if n ≤ 0 then 1 else if n > 4 then 4 else n
    (pyStripStr ⟨subAll s.toList⟩, count)

/-- One observable output unit: a yielded text response, or an attachment
posted through the transport (bytes plus display filename). -/
inductive Event where
  | text (s : String)
  | attachment (data : String) (filename : String)
deriving DecidableEq

/-- A generated image: pilImage is the abstract pixel data when the object
has the _pil_image attribute, none when it must be skipped. -/
structure ImageObj where
  pilImage : Option String
deriving DecidableEq

/-- Oracles for the external effects: the batched generation call either
raises (carrying its message) or returns a list of image objects, and the
publish oracle gives, per image index, the signed URL when both the upload
and the URL signing succeed, and none when any step of that block raises. -/
structure Env where
  genResult : Except String (List ImageObj)
  publish : Nat → Option String

/-- Message of the CPython IndexError raised by list[-1] on an empty list. -/
def indexErrorMsg : String := "list index out of range"

/-- Empty-prompt short-circuit message. -/
def promptRequiredMsg : String := "Prompt is required"

/-- Empty-batch message. -/
def noImagesMsg : String :=
  "No images were generated. Please modify your prompt or try again later."

/-- Display filename: first 10 characters of the cleaned prompt with spaces
replaced by underscores, then _image_<index+1>.jpg. -/
def mkFilename (cleaned : String) (i : Nat) : String :=
  ⟨(cleaned.toList.take 10).map (fun c => if c = ' ' then '_' else c)⟩ ++
    "_image_" ++ toString (i + 1) ++ ".jpg"

/-- Markdown image reference embedding the signed URL. -/
def mkMarkdown (filename url : String) : String :=
  "![Generated Image_" ++ filename ++ "](" ++ url ++ ")"

/-- Summary text yielded in the attachment fallback branch. -/
def mkSummary (count : Nat) (cleaned : String) : String :=
  toString count ++ " image(s) generated by Imagen3 attached for \"" ++ cleaned ++ "\"."

/-- The per-image loop, lines 132-177: skip an image without pixel data;
otherwise try the publish block, yielding the markdown link on success, and
on any failure post the attachment and then (still inside the loop body)
yield the summary text. -/
def runImages (cleaned : String) (count : Nat) (publish : Nat → Option String) :
    Nat → List ImageObj → List Event
  | _, [] => []
  | i, img :: rest =>
    (match img.pilImage with
      | none => []
      | some data =>
        match publish i with
        | some url => [Event.text (mkMarkdown (mkFilename cleaned i) url)]
        | none => [Event.attachment data (mkFilename cleaned i),
                   Event.text (mkSummary count cleaned)]) ++
      runImages cleaned count publish (i + 1) rest

/-- Result of running the body of the try block: the events emitted before
any uncaught exception, the pending exception if one was raised, whether
the generation capability was invoked, and with which prompt and count. -/
structure RunResult where
  events : List Event
  exc : Option String
  genCalled : Bool
  genArgs : Option (String × Nat)
deriving DecidableEq

/-- Body of the try block of get_response: extract the last message (an
empty query list raises IndexError), short-circuit on the empty prompt,
parse the directive, call the generation capability (its failure is an
exception reaching the outer handler), answer the empty batch, and
otherwise run the per-image loop.  Nothing is emitted after the loop. -/
def body (query : List String) (env : Env) : RunResult :=
  match query.getLast? with
  | none => ⟨[], some indexErrorMsg, false, none⟩
  | some lastMessage =>
    if lastMessage = "" then ⟨[Event.text promptRequiredMsg], none, false, none⟩
    else
      match env.genResult with
      | .error e => ⟨[], some e, true, some (parsePrompt lastMessage)⟩
      | .ok images =>
        if images.length = 0 then
          ⟨[Event.text noImagesMsg], none, true, some (parsePrompt lastMessage)⟩
        else
          ⟨runImages (parsePrompt lastMessage).1 (parsePrompt lastMessage).2
              env.publish 0 images,
           none, true, some (parsePrompt lastMessage)⟩

/-- The full handler: the body wrapped in the outermost except handler,
which turns a pending exception into one final "Error: <message>" text. -/
def getResponse (query : List String) (env : Env) : List Event :=
  (body query env).events ++
    (match (body query env).exc with
      | none => []
      | some e => [Event.text ("Error: " ++ e)])

/-- When the search finds no directive, the parser returns the prompt
unmodified with count 1. -/
theorem parse_noMatch (s : String) (h : searchDigits s.toList = none) :
    parsePrompt s = (s, 1) := by
  have h2 : searchDigits s.data = none := h
  simp [parsePrompt, h2]

/-- The directive literal cannot match at a position holding a whitespace
character. -/
theorem startsWithLit_space (c : Char) (cs : List Char) (hc : pySpace c = true) :
    startsWithLit directiveLit (c :: cs) = false := by
  have hlit : directiveLit = '-' :: "-number_of_images".toList := by decide
  rw [hlit]
  simp only [startsWithLit, Bool.and_eq_false_iff]
  left
  have hc2 : c = ' ' ∨ c = '\t' ∨ c = '\n' ∨ c = '\x0d' ∨
      c = Char.ofNat 11 ∨ c = Char.ofNat 12 := by
    simpa [pySpace, or_assoc] using hc
  rcases hc2 with h | h | h | h | h | h <;> subst h <;> decide

/-- A string consisting only of whitespace contains no directive match. -/
theorem allSpace_searchDigits (l : List Char) (h : ∀ c ∈ l, pySpace c = true) :
    searchDigits l = none := by
  induction l with
  | nil => rfl
  | cons c cs ih =>
    have hc := h c (by simp)
    have hm : matchInfo (c :: cs) = none := by
      simp [matchInfo, startsWithLit_space c cs hc]
    simp only [searchDigits, hm]
    exact ih (fun x hx => h x (by simp [hx]))

/-- C3: the claim states that a non-empty prompt without a count directive
parses to count 1 and the prompt with surrounding whitespace trimmed.  The
code never trims in the no-directive branch (str.strip is applied only
inside the directive branch), so the trimming part is false: the prompt
" cat " is returned unchanged, not as "cat". -/
theorem C3_counterexample :
    parsePrompt " cat " = (" cat ", 1) ∧ pyStripStr " cat " = "cat" ∧
      (" cat " : String) ≠ "cat" := by
  decide

/-- C3 amended: for every non-empty prompt without a count directive, the
parser yields count 1 and a cleaned prompt equal to the original prompt
unchanged (no whitespace trimming occurs in this branch). -/
theorem C3_amended_thm (s : String) (h1 : s ≠ "")
    (h2 : searchDigits s.toList = none) : parsePrompt s = (s, 1) :=
  parse_noMatch s h2

/-- C3 amended, witnessed at the concrete prompt "cat". -/
theorem C3_witness : parsePrompt "cat" = ("cat", 1) :=
  C3_amended_thm "cat" (by decide) (by decide)

/-- C4: the claim states the directive substring never appears in the
cleaned prompt.  re.sub deletes non-overlapping occurrences left to right,
and deleting one occurrence can splice the surrounding text into a new
occurrence: on "--number_of_images--number_of_images=4=5" the single match
"--number_of_images=4" is deleted, leaving the cleaned prompt
"--number_of_images=5", in which the directive pattern matches again. -/
theorem C4_counterexample :
    (parsePrompt "--number_of_images--number_of_images=4=5").1 =
        "--number_of_images=5" ∧
      searchDigits (parsePrompt
          "--number_of_images--number_of_images=4=5").1.toList = some ['5'] := by
  decide

/-- C4 amended: for every prompt containing a count directive with first
match value n, the count is 1 when n = 0, n when 1 ≤ n ≤ 4, and 4 when
n > 4, hence always within [1,4]; and the example prompt
"a cat --number_of_images=7 in space" yields cleaned prompt
"a cat  in space" with count 4.  (The clause that the directive substring
never appears in the cleaned prompt is dropped: deletion of an occurrence
can splice a new one, see the counterexample.) -/
theorem C4_amended_thm (s : String) (ds : List Char)
    (h : searchDigits s.toList = some ds) :
    ((natOfDigits ds = 0 → (parsePrompt s).2 = 1) ∧
      (1 ≤ natOfDigits ds → natOfDigits ds ≤ 4 →
        (parsePrompt s).2 = natOfDigits ds) ∧
      (4 < natOfDigits ds → (parsePrompt s).2 = 4)) ∧
    (1 ≤ (parsePrompt s).2 ∧ (parsePrompt s).2 ≤ 4) ∧
    parsePrompt "a cat --number_of_images=7 in space" = ("a cat  in space", 4) := by
  refine ⟨⟨?_, ?_, ?_⟩, ⟨?_, ?_⟩, by decide⟩ <;>
    simp only [parsePrompt, h] <;> intros <;> split_ifs <;> omega

/-- C4 amended, witnessed at the prompt "x --number_of_images=3": the
directive value 3 lies in [1,4] and the count is 3. -/
theorem C4_witness : (parsePrompt "x --number_of_images=3").2 = 3 :=
  (C4_amended_thm "x --number_of_images=3" ['3'] (by decide)).1.2.1
    (by decide) (by decide)

/-- C8: the claim states the parser is idempotent on every non-empty
prompt.  On "--number_of_images--number_of_images=4=5" the first run yields
cleaned prompt "--number_of_images=5" (see C4): re-running the parser on
that cleaned prompt finds the spliced directive and returns ("", 4), not
the same prompt with count 1. -/
theorem C8_counterexample :
    parsePrompt (parsePrompt "--number_of_images--number_of_images=4=5").1 ≠
      ((parsePrompt "--number_of_images--number_of_images=4=5").1, 1) := by
  decide

/-- C8 amended: for every non-empty prompt whose cleaned output contains no
residual directive occurrence, re-running the parser on the cleaned output
returns it unchanged with count 1.  (Unconditional idempotence fails:
deleting an occurrence can splice surrounding text into a new occurrence,
see the counterexample.) -/
theorem C8_amended_thm (s : String) (h1 : s ≠ "")
    (h2 : searchDigits (parsePrompt s).1.toList = none) :
    parsePrompt (parsePrompt s).1 = ((parsePrompt s).1, 1) :=
  parse_noMatch _ h2

/-- C8 amended, witnessed at "a --number_of_images=2 b", whose cleaned
output "a  b" holds no residual directive. -/
theorem C8_witness :
    parsePrompt (parsePrompt "a --number_of_images=2 b").1 =
      ((parsePrompt "a --number_of_images=2 b").1, 1) :=
  C8_amended_thm "a --number_of_images=2 b" (by decide) (by decide)

/-- A batch in which every image lacks pixel data produces no events. -/
theorem runImages_allNone (cleaned : String) (count : Nat)
    (pub : Nat → Option String) :
    ∀ (imgs : List ImageObj) (i : Nat), (∀ img ∈ imgs, img.pilImage = none) →
      runImages cleaned count pub i imgs = [] := by
  intro imgs
  induction imgs with
  | nil => intro i _; rfl
  | cons img rest ih =>
    intro i h
    have h1 : img.pilImage = none := h img (by simp)
    simp only [runImages, h1, List.nil_append]
    exact ih (i + 1) (fun x hx => h x (by simp [hx]))

/-- A batch in which every image has pixel data and every publish succeeds
produces one markdown-link text per image, in order, the response at
position j embedding the signed URL of image j. -/
theorem runImages_link (cleaned : String) (count : Nat)
    (pub : Nat → Option String) (u : Nat → String) :
    ∀ (imgs : List ImageObj) (i : Nat),
      (∀ img ∈ imgs, (img.pilImage).isSome = true) →
      (∀ k, k < imgs.length → pub (i + k) = some (u (i + k))) →
      (runImages cleaned count pub i imgs).length = imgs.length ∧
      ∀ j, j < imgs.length →
        (runImages cleaned count pub i imgs)[j]? =
          some (Event.text (mkMarkdown (mkFilename cleaned (i + j)) (u (i + j)))) := by
  intro imgs
  induction imgs with
  | nil =>
    intro i _ _
    exact ⟨rfl, fun j hj => (Nat.not_lt_zero j hj).elim⟩
  | cons img rest ih =>
    intro i hpil hpub
    obtain ⟨d, hd⟩ := Option.isSome_iff_exists.mp (hpil img (by simp))
    have hp0 : pub i = some (u i) := by simpa using hpub 0 (by simp)
    have hrw : runImages cleaned count pub i (img :: rest) =
        Event.text (mkMarkdown (mkFilename cleaned i) (u i)) ::
          runImages cleaned count pub (i + 1) rest := by
      simp [runImages, hd, hp0]
    obtain ⟨ihlen, ihget⟩ := ih (i + 1)
      (fun x hx => hpil x (by simp [hx]))
      (fun k hk => by
        have h2 := hpub (k + 1) (by simpa using Nat.succ_lt_succ hk)
        have he : i + (k + 1) = (i + 1) + k := by omega
        rw [he] at h2
        exact h2)
    refine ⟨by simp [hrw, ihlen], ?_⟩
    intro j hj
    cases j with
    | zero => simp [hrw]
    | succ j =>
      have hj2 : j < rest.length := by simpa using Nat.lt_of_succ_lt_succ hj
      have hg := ihget j hj2
      rw [hrw]
      have he : i + (j + 1) = (i + 1) + j := by omega
      rw [he]
      simpa using hg

/-- Concrete environment: two images with pixel data, every publish
attempt fails. -/
def envAllFail : Env := ⟨.ok [⟨some "IMG1"⟩, ⟨some "IMG2"⟩], fun _ => none⟩

/-- Concrete environment: one image without pixel data. -/
def envNoPil : Env := ⟨.ok [⟨none⟩], fun _ => none⟩

/-- Concrete environment: the generation call raises with message boom. -/
def envGenFail : Env := ⟨.error "boom", fun _ => none⟩

/-- Concrete environment: one image with pixel data and a publish oracle
that always succeeds with a fixed signed URL. -/
def envLink : Env := ⟨.ok [⟨some "D0"⟩], fun _ => some "https://signed.example/u0"⟩

/-- C1: the claim (like the code's own comment above the final yield,
"Yield a response after all images have been attached", and like the
sibling file imagne3_peo_test.py, where that yield sits after the loop)
requires the N attachments first and then exactly one summary text.  In
imagen_bot_poe.py the summary yield is indented into the per-image fallback
branch, so a batch of two images whose publishes both fail produces
attachment, summary, attachment, summary: two summary texts interleaved
with the attachments, not one summary after all of them. -/
theorem C1_eval :
    getResponse ["cat --number_of_images=2"] envAllFail =
      [Event.attachment "IMG1" "cat_image_1.jpg",
       Event.text "2 image(s) generated by Imagen3 attached for \"cat\".",
       Event.attachment "IMG2" "cat_image_2.jpg",
       Event.text "2 image(s) generated by Imagen3 attached for \"cat\"."] := by
  decide

/-- C2: the claim states that a batch with zero usable images always emits
exactly one terminal text response.  That holds for the empty batch, but
when the batch is non-empty and every image lacks pixel data the loop skips
them all and nothing follows the loop: the pipeline emits zero responses,
as this run on one pixel-less image shows. -/
theorem C2_counterexample : getResponse ["cat"] envNoPil = [] := by
  decide

/-- C2 amended: with a non-empty prompt, an empty generated batch emits
exactly one terminal text response (the no-images message) and no
attachment or link responses; a non-empty batch in which every image lacks
extractable pixel data emits no responses at all. -/
theorem C2_amended_thm (query : List String) (env : Env) (p : String)
    (imgs : List ImageObj) (hq : query.getLast? = some p) (hp : p ≠ "")
    (hg : env.genResult = .ok imgs) :
    (imgs = [] → getResponse query env = [Event.text noImagesMsg]) ∧
    ((∀ img ∈ imgs, img.pilImage = none) → imgs ≠ [] →
      getResponse query env = []) := by
  constructor
  · intro h0
    subst h0
    simp [getResponse, body, hq, hp, hg]
  · intro hall hne
    have hlen : ¬ imgs.length = 0 := by simpa [List.length_eq_zero] using hne
    have hrun := runImages_allNone (parsePrompt p).1 (parsePrompt p).2
      env.publish imgs 0 hall
    simp [getResponse, body, hq, hp, hg, hlen, hrun]

/-- C2 amended, witnessed on the empty-batch side: an environment whose
generation call returns the empty list yields exactly the no-images text. -/
theorem C2_witness :
    getResponse ["cat"] ⟨.ok [], fun _ => none⟩ = [Event.text noImagesMsg] :=
  (C2_amended_thm ["cat"] ⟨.ok [], fun _ => none⟩ "cat" [] rfl (by decide) rfl).1 rfl

/-- C5: with a non-empty prompt, a non-empty batch in which every image has
pixel data and every publish succeeds yields exactly one response per
image: the response list has the batch's length, the response at position
j is the markdown text built from the filename of image j and the signed
URL of image j (so responses follow generation order and distinct signed
URLs give distinct embedded URLs), and the response at position j contains
the signed URL of image j as a substring. -/
theorem C5_thm (query : List String) (env : Env) (p : String)
    (imgs : List ImageObj) (u : Nat → String)
    (hq : query.getLast? = some p) (hp : p ≠ "")
    (hg : env.genResult = .ok imgs) (hne : imgs ≠ [])
    (hpil : ∀ img ∈ imgs, (img.pilImage).isSome = true)
    (hpub : ∀ k, k < imgs.length → env.publish k = some (u k)) :
    (getResponse query env).length = imgs.length ∧
    (∀ j, j < imgs.length → (getResponse query env)[j]? =
      some (Event.text (mkMarkdown (mkFilename (parsePrompt p).1 j) (u j)))) ∧
    (∀ j, j < imgs.length → ∃ a b, (getResponse query env)[j]? =
      some (Event.text (a ++ u j ++ b))) := by
  have hlen : ¬ imgs.length = 0 := by simpa [List.length_eq_zero] using hne
  have hresp : getResponse query env =
      runImages (parsePrompt p).1 (parsePrompt p).2 env.publish 0 imgs := by
    simp [getResponse, body, hq, hp, hg, hlen]
  obtain ⟨h1, h2⟩ := runImages_link (parsePrompt p).1 (parsePrompt p).2
    env.publish u imgs 0 hpil (fun k hk => by simpa using hpub k hk)
  refine ⟨by rw [hresp]; exact h1, ?_, ?_⟩
  · intro j hj
    rw [hresp]
    simpa using h2 j hj
  · intro j hj
    refine ⟨"![Generated Image_" ++ mkFilename (parsePrompt p).1 j ++ "](", ")", ?_⟩
    rw [hresp]
    have hg2 := h2 j hj
    simp only [Nat.zero_add] at hg2
    rw [hg2]
    simp [mkMarkdown]

/-- C5, witnessed on a one-image batch that publishes via Link: exactly one
response is returned. -/
theorem C5_witness : (getResponse ["cat"] envLink).length = 1 :=
  (C5_thm ["cat"] envLink "cat" [⟨some "D0"⟩]
    (fun _ => "https://signed.example/u0") rfl (by decide) rfl (by simp)
    (by decide) (fun k hk => rfl)).1

/-- Whenever the body ends with a pending exception, no event was emitted
before it: the only fault points, the IndexError of query[-1] on an empty
list and the generation call raising, both precede the first yield. -/
theorem exc_events_nil (query : List String) (env : Env) (e : String)
    (h : (body query env).exc = some e) : (body query env).events = [] := by
  cases hq : query.getLast? with
  | none => simp [body, hq]
  | some p =>
    by_cases hp : p = ""
    · simp [body, hq, hp] at h
    · cases hg : env.genResult with
      | error e2 => simp [body, hq, hp, hg]
      | ok imgs =>
        by_cases hl : imgs.length = 0 <;> simp [body, hq, hp, hg, hl] at h

/-- C6: any exception pending at the end of the body is caught by the
outermost handler and converted into exactly one terminal text response of
the form Error: <message>; since the fault points precede the first yield,
that text is the whole response list, and the handler itself is a total
function, so nothing propagates to the transport layer. -/
theorem C6_thm (query : List String) (env : Env) (e : String)
    (h : (body query env).exc = some e) :
    getResponse query env = [Event.text ("Error: " ++ e)] := by
  have hev := exc_events_nil query env e h
  simp [getResponse, h, hev]

/-- C6, witnessed on a generation call raising boom. -/
theorem C6_witness :
    getResponse ["cat"] envGenFail = [Event.text ("Error: " ++ "boom")] :=
  C6_thm ["cat"] envGenFail "boom" (by decide)

/-- C7: when the last message content is the empty string, the handler
emits exactly the Prompt is required text and the generation capability is
never invoked, whatever the environment would have answered. -/
theorem C7_thm (query : List String) (env : Env)
    (hq : query.getLast? = some "") :
    getResponse query env = [Event.text promptRequiredMsg] ∧
    (body query env).genCalled = false := by
  constructor <;> simp [getResponse, body, hq]

/-- C7, witnessed on the one-message query with empty content. -/
theorem C7_witness :
    getResponse [""] envGenFail = [Event.text promptRequiredMsg] ∧
    (body [""] envGenFail).genCalled = false :=
  C7_thm [""] envGenFail rfl

/-- C9: on an empty chat-turn list, extracting the last turn raises
IndexError, the outermost handler turns it into the single text
Error: list index out of range, that text differs from the
Prompt is required message, and the generation capability is never
invoked. -/
theorem C9_thm (env : Env) :
    getResponse [] env = [Event.text ("Error: " ++ indexErrorMsg)] ∧
    (body [] env).genCalled = false ∧
    Event.text ("Error: " ++ indexErrorMsg) ≠ Event.text promptRequiredMsg :=
  ⟨rfl, rfl, by decide⟩

/-- C9, witnessed at a concrete environment. -/
theorem C9_witness :
    getResponse [] envGenFail = [Event.text ("Error: " ++ indexErrorMsg)] :=
  (C9_thm envGenFail).1

/-- C10: a prompt that is non-empty but all whitespace is not caught by the
empty-prompt short-circuit (Python truthiness only rejects the empty
string), contains no directive, and is passed to the generation capability
unchanged with count 1. -/
theorem C10_thm (query : List String) (env : Env) (s : String)
    (hq : query.getLast? = some s) (hne : s ≠ "")
    (hsp : ∀ c ∈ s.toList, pySpace c = true) :
    (body query env).genCalled = true ∧
    (body query env).genArgs = some (s, 1) := by
  have hparse : parsePrompt s = (s, 1) :=
    parse_noMatch s (allSpace_searchDigits s.toList hsp)
  cases hg : env.genResult with
  | error e => simp [body, hq, hne, hg, hparse]
  | ok imgs =>
    by_cases hl : imgs.length = 0 <;> simp [body, hq, hne, hg, hl, hparse]

/-- C10, witnessed on the one-space prompt. -/
theorem C10_witness :
    (body [" "] envGenFail).genCalled = true ∧
    (body [" "] envGenFail).genArgs = some (" ", 1) :=
  C10_thm [" "] envGenFail " " rfl (by decide) (by decide)

end ImagenBot
